import Mathlib

/-!
Shallow embedding of `src/server.py`, a minimal HTTP health-check server.

The server consists of a module-level configuration line
`PORT = int(os.environ.get("PORT", 8080))` and a request handler class
with two methods, `do_GET` and `do_POST`.  Both build a JSON object and
send it with status 200 and a `Content-type: application/json` header.
`do_POST` first evaluates `int(self.headers.get('Content-Length', 0))`
(which raises `ValueError` on a non-numeric header value), then reads
that many bytes from `rfile` and decodes them as UTF-8 (which raises
`UnicodeDecodeError` on malformed input) -- both exceptions occur before
any response byte is written.

Python exceptions are modelled with `Except`, the request input stream
`rfile` as a list of bytes, and the handler methods as pure functions of
the configured port and the request data.
-/

/-- Exceptions that the handler code can raise before writing a response. -/
inductive HandlerError where
  | valueError
  | unicodeDecodeError
deriving DecidableEq, Repr

/-- Whitespace stripped by Python around an `int()` argument
(`Py_UNICODE_ISSPACE`): ASCII whitespace plus the Unicode space
characters. -/
def pyIsSpace (c : Char) : Bool :=
  let n := c.toNat
  (0x09 ≤ n && n ≤ 0x0D) || n = 0x20 || (0x1C ≤ n && n ≤ 0x1F) ||
  n = 0x85 || n = 0xA0 || n = 0x1680 || (0x2000 ≤ n && n ≤ 0x200A) ||
  n = 0x2028 || n = 0x2029 || n = 0x202F || n = 0x205F || n = 0x3000

/-- Strip leading and trailing whitespace from a character list. -/
def pyStrip (l : List Char) : List Char :=
  ((l.dropWhile pyIsSpace).reverse.dropWhile pyIsSpace).reverse

/-- First code points of the 10-character runs of Unicode category Nd
(decimal digits), which Python's `int()` accepts in any script. -/
def ndBases : List Nat :=
  [0x30, 0x660, 0x6F0, 0x7C0, 0x966, 0x9E6, 0xA66, 0xAE6, 0xB66, 0xBE6,
   0xC66, 0xCE6, 0xD66, 0xDE6, 0xE50, 0xED0, 0xF20, 0x1040, 0x1090, 0x17E0,
   0x1810, 0x1946, 0x19D0, 0x1A80, 0x1A90, 0x1B50, 0x1BB0, 0x1C40, 0x1C50,
   0xA620, 0xA8D0, 0xA900, 0xA9D0, 0xA9F0, 0xAA50, 0xABF0, 0xFF10,
   0x104A0, 0x10D30, 0x11066, 0x110F0, 0x11136, 0x111D0, 0x112F0, 0x11450,
   0x114D0, 0x11650, 0x116C0, 0x11730, 0x118E0, 0x11950, 0x11C50, 0x11D50,
   0x11DA0, 0x11F50, 0x16A60, 0x16AC0, 0x16B50,
   0x1D7CE, 0x1D7D8, 0x1D7E2, 0x1D7EC, 0x1D7F6,
   0x1E140, 0x1E2F0, 0x1E4F0, 0x1E950, 0x1FBF0]

/-- Decimal value of a character under `Py_UNICODE_TODECIMAL`: its offset
in an Nd run, `none` for a non-digit. -/
def pyDigit (c : Char) : Option Nat :=
  (ndBases.find? (fun b => b ≤ c.toNat && c.toNat < b + 10)).map
    (fun b => c.toNat - b)

/-- Continue parsing a digit run after at least one digit, with PEP 515
grouping: a single underscore may stand between two digits, never
doubled or trailing. -/
def pyDigitsRest : Nat → List Char → Option Nat
  | acc, [] => some acc
  | acc, '_' :: c :: rest =>
    match pyDigit c with
    | some d => pyDigitsRest (acc * 10 + d) rest
    | none => none
  | _, '_' :: [] => none
  | acc, c :: rest =>
    match pyDigit c with
    | some d => pyDigitsRest (acc * 10 + d) rest
    | none => none

/-- Parse a nonempty digit run: it must start with a digit (an
underscore may not lead or follow the sign). -/
def pyIntDigits : List Char → Option Nat
  | [] => none
  | c :: rest =>
    match pyDigit c with
    | some d => pyDigitsRest d rest
    | none => none

/-- Model of Python `int(s)` on a string: strip surrounding whitespace,
allow one optional sign, then a nonempty run of decimal digits in any
script, with single PEP 515 underscores permitted between digits.
Returns `none` when `int` would raise `ValueError`. -/
def pyInt (s : String) : Option Int :=
  match pyStrip s.data with
  | '+' :: rest => (pyIntDigits rest).map Int.ofNat
  | '-' :: rest => (pyIntDigits rest).map (fun n => -(n : Int))
  | l => (pyIntDigits l).map Int.ofNat

/-- Python `rfile.read(n)` on a stream holding `data`: a negative size
reads to end of stream, otherwise the first `n` bytes are returned
(the model assumes the declared bytes are available; the real read
blocks until they are). -/
def pyRead (data : List Nat) (n : Int) : List Nat :=
  if n < 0 then data else data.take n.toNat

/-- True iff a continuation byte `0x80..0xBF`. -/
def isCont (b : Nat) : Bool := 0x80 ≤ b && b ≤ 0xBF

/-- Decode one code point of strict UTF-8 from the front of a byte list,
returning the code point and the remaining bytes; `none` on an invalid
or truncated sequence (overlong encodings, surrogates and values above
U+10FFFF are all rejected, as Python's strict `utf-8` codec does). -/
def utf8DecodeOne : List Nat → Option (Nat × List Nat)
  | [] => none
  | b :: rest =>
    if b < 0x80 then
      some (b, rest)
    else if 0xC2 ≤ b && b ≤ 0xDF then
      match rest with
      | c1 :: rest2 =>
        if isCont c1 then
          some ((b - 0xC0) * 64 + (c1 - 0x80), rest2)
        else none
      | [] => none
    else if 0xE0 ≤ b && b ≤ 0xEF then
      match rest with
      | c1 :: c2 :: rest2 =>
        let lo1 := if b = 0xE0 then 0xA0 else 0x80
        let hi1 := if b = 0xED then 0x9F else 0xBF
        if lo1 ≤ c1 && c1 ≤ hi1 && isCont c2 then
          some ((b - 0xE0) * 4096 + (c1 - 0x80) * 64 + (c2 - 0x80), rest2)
        else none
      | _ => none
    else if 0xF0 ≤ b && b ≤ 0xF4 then
      match rest with
      | c1 :: c2 :: c3 :: rest2 =>
        let lo1 := if b = 0xF0 then 0x90 else 0x80
        let hi1 := if b = 0xF4 then 0x8F else 0xBF
        if lo1 ≤ c1 && c1 ≤ hi1 && isCont c2 && isCont c3 then
          some ((b - 0xF0) * 262144 + (c1 - 0x80) * 4096 +
            (c2 - 0x80) * 64 + (c3 - 0x80), rest2)
        else none
      | _ => none
    else none

/-- Decoding loop with explicit fuel.  Each decoded code point consumes
at least one byte, so fuel equal to the list length never runs out. -/
def utf8DecodeFuel : Nat → List Nat → Option (List Nat)
  | _, [] => some []
  | 0, _ :: _ => none
  | fuel + 1, b :: rest =>
    match utf8DecodeOne (b :: rest) with
    | some (cp, rest2) => (utf8DecodeFuel fuel rest2).map (cp :: ·)
    | none => none

/-- Strict UTF-8 decoding of a byte list to a list of code points,
as performed by Python `bytes.decode('utf-8')`; `none` models
`UnicodeDecodeError`. -/
def utf8Decode (l : List Nat) : Option (List Nat) :=
  utf8DecodeFuel l.length l

/-- The JSON object built by the handler (`json.dumps` argument);
`body_received` is present only on the POST branch. -/
structure JsonBody where
  status : String
  port : Int
  method : String
  path : String
  body_received : Option Bool
deriving DecidableEq, Repr

/-- An HTTP response as produced by the handler: status code sent with
`send_response`, headers sent with `send_header`, and the JSON body. -/
structure Response where
  statusCode : Nat
  headers : List (String × String)
  body : JsonBody
deriving DecidableEq, Repr

/-- ASCII-lowercase a string (HTTP header names compare case-insensitively). -/
def asciiLower (s : String) : String :=
  ⟨s.data.map (fun c => if 'A' ≤ c && c ≤ 'Z' then Char.ofNat (c.toNat + 32) else c)⟩

/-- Case-insensitive header lookup. -/
def getHeader (headers : List (String × String)) (name : String) : Option String :=
  (headers.find? (fun p => asciiLower p.1 == asciiLower name)).map (·.2)

/-- Model of `Handler.do_GET`: respond 200 with content type `application/json`
and body `{"status": "healthy", "port": PORT, "method": "GET", "path": self.path}`. -/
def do_GET (port : Int) (path : String) : Response :=
  { statusCode := 200
    headers := [("Content-type", "application/json")]
    body := { status := "healthy", port := port, method := "GET",
              path := path, body_received := none } }

/-- Result of a successful `do_POST`: the response written, the bytes
left on `rfile`, and the sizes of the `rfile.read` calls performed. -/
structure PostResult where
  resp : Response
  remaining : List Nat
  reads : List Int
deriving DecidableEq, Repr

/-- Model of `int(self.headers.get('Content-Length', 0))`: the default `0` is
already an `int`; a present header value is parsed by `int`, raising
`ValueError` when non-numeric. -/
def contentLengthOf (clHeader : Option String) : Except HandlerError Int :=
  match clHeader with
  | none => .ok 0
  | some s =>
    match pyInt s with
    | some n => .ok n
    | none => .error .valueError

/-- Model of `Handler.do_POST`: evaluate the `Content-Length` header via `int`,
read and UTF-8-decode that many body bytes when the length is nonzero
(otherwise the body is `''` and `rfile` is not touched), then respond
200 with `body_received` true iff the decoded body is non-empty
(Python string truthiness).  Both exceptions propagate before
`send_response` runs, so an error value means no response was written. -/
def do_POST (port : Int) (path : String) (clHeader : Option String)
    (rfileData : List Nat) : Except HandlerError PostResult :=
  match contentLengthOf clHeader with
  | .error e => .error e
  | .ok content_length =>
    match (if content_length ≠ 0 then
            match utf8Decode (pyRead rfileData content_length) with
            | some cps =>
              Except.ok (cps, rfileData.drop (pyRead rfileData content_length).length,
                [content_length])
            | none => Except.error HandlerError.unicodeDecodeError
          else
            Except.ok ([], rfileData, [])) with
    | .error e => .error e
    | .ok (bodyCps, remaining, reads) =>
      .ok { resp :=
              { statusCode := 200
                headers := [("Content-type", "application/json")]
                body := { status := "healthy", port := port, method := "POST",
                          path := path, body_received := some (!bodyCps.isEmpty) } }
            remaining := remaining
            reads := reads }

/-- Model of `PORT = int(os.environ.get("PORT", 8080))`: absent variable gives the
integer default `8080`; a present value goes through `int`, raising
`ValueError` at startup on non-numeric input. -/
def startupPort (envPORT : Option String) : Except HandlerError Int :=
  match envPORT with
  | none => .ok 8080
  | some s =>
    match pyInt s with
    | some n => .ok n
    | none => .error .valueError

/-- One inbound request, as seen by the handler. -/
inductive Event where
  | get (path : String)
  | post (path : String) (clHeader : Option String) (rfileData : List Nat)
deriving DecidableEq, Repr

/-- Dispatch one request to the matching handler method. -/
def handleEvent (port : Int) : Event → Except HandlerError Response
  | .get p => .ok (do_GET port p)
  | .post p cl data => (do_POST port p cl data).map (·.resp)

/-- The serving loop: each connection is handled independently by a fresh
handler instance; an exception in one handler is caught by the socket
server and does not affect later requests. -/
def runServer (port : Int) (evs : List Event) : List (Except HandlerError Response) :=
  evs.map (handleEvent port)

/-- Hexadecimal digit character (lowercase), as in `json.dumps` escapes. -/
def hexDigit (n : Nat) : Char :=
  if n < 10 then Char.ofNat (48 + n) else Char.ofNat (87 + n)

/-- Four-hex-digit `\uXXXX` escape of a code unit. -/
def uEscape (n : Nat) : String :=
  ⟨['\\', 'u', hexDigit (n / 4096 % 16), hexDigit (n / 256 % 16),
    hexDigit (n / 16 % 16), hexDigit (n % 16)]⟩

/-- Escaping of one character as performed by `json.dumps` with its
default `ensure_ascii=True`: printable ASCII other than `"` and `\`
is literal, control characters use the short escapes or `\u00XX`, and
everything above `~` becomes `\uXXXX` (a surrogate pair beyond U+FFFF). -/
def jsonEscapeChar (c : Char) : String :=
  let n := c.toNat
  if c = '"' then "\\\""
  else if c = '\\' then "\\\\"
  else if n = 8 then "\\b"
  else if n = 9 then "\\t"
  else if n = 10 then "\\n"
  else if n = 12 then "\\f"
  else if n = 13 then "\\r"
  else if n < 0x20 then uEscape n
  else if n < 0x7F then String.singleton c
  else if n ≤ 0xFFFF then uEscape n
  else uEscape (0xD800 + (n - 0x10000) / 0x400) ++ uEscape (0xDC00 + (n - 0x10000) % 0x400)

/-- Model of `json.dumps` escaping of a string (without the surrounding quotes). -/
def jsonEscape (s : String) : String :=
  s.data.foldl (fun acc c => acc ++ jsonEscapeChar c) ""

/-- Model of `json.dumps` on the handler's dict, with Python's insertion-ordered
keys and default separators. -/
def serializeBody (b : JsonBody) : String :=
  "\x7b\"status\": \"" ++ jsonEscape b.status ++
  "\", \"port\": " ++ toString b.port ++
  ", \"method\": \"" ++ jsonEscape b.method ++
  "\", \"path\": \"" ++ jsonEscape b.path ++ "\"" ++
  (match b.body_received with
   | none => ""
   | some tf => ", \"body_received\": " ++ (if tf then "true" else "false")) ++
  "\x7d"

/-- Abbreviation for the response `do_POST` builds (used in theorem
statements): status 200, JSON content type, and the POST body object. -/
def postResponse (port : Int) (path : String) (received : Bool) : Response :=
  { statusCode := 200
    headers := [("Content-type", "application/json")]
    body := { status := "healthy", port := port, method := "POST",
              path := path, body_received := some received } }

/-- Decoding a non-empty byte list never yields an empty code-point list. -/
theorem utf8Decode_cons_ne_nil {b : Nat} {rest cps : List Nat}
    (h : utf8Decode (b :: rest) = some cps) : cps ≠ [] := by
  simp only [utf8Decode, List.length_cons, utf8DecodeFuel] at h
  rcases ho : utf8DecodeOne (b :: rest) with - | ⟨cp, rest2⟩ <;> rw [ho] at h
  · simp at h
  · simp only [Option.map_eq_some'] at h
    rcases h with ⟨a, -, ha⟩
    simp [← ha]

/-- A successfully decoded body is empty exactly when the byte input is. -/
theorem utf8Decode_nil_iff {l cps : List Nat} (h : utf8Decode l = some cps) :
    cps = [] ↔ l = [] := by
  cases l with
  | nil =>
    simp only [utf8Decode, List.length_nil, utf8DecodeFuel, Option.some.injEq] at h
    simp [← h]
  | cons b rest =>
    have := utf8Decode_cons_ne_nil h
    simp [this]

/-- Any successful `do_POST` result has the fixed response shape: status
200, the JSON content-type header, and body fields except
`body_received` determined by the configured port and the path. -/
theorem do_POST_ok_shape {port : Int} {P : String} {cl : Option String}
    {data : List Nat} {res : PostResult}
    (h : do_POST port P cl data = .ok res) :
    res.resp.statusCode = 200 ∧
    res.resp.headers = [("Content-type", "application/json")] ∧
    res.resp.body.status = "healthy" ∧
    res.resp.body.port = port ∧
    res.resp.body.method = "POST" ∧
    res.resp.body.path = P := by
  unfold do_POST at h
  repeat' split at h
  all_goals simp_all
  all_goals (rw [← h]; exact ⟨rfl, rfl, rfl, rfl, rfl, rfl⟩)

/-- Any `ok` output of `handleEvent` reports the configured port. -/
theorem handleEvent_ok_port {port : Int} {e : Event} {r : Response}
    (h : handleEvent port e = .ok r) : r.body.port = port := by
  cases e with
  | get p =>
    simp only [handleEvent, Except.ok.injEq] at h
    simp [← h, do_GET]
  | post p cl data =>
    simp only [handleEvent] at h
    rcases hp : do_POST port p cl data with e' | res <;> rw [hp] at h <;>
      simp [Except.map] at h
    rw [← h]
    exact (do_POST_ok_shape hp).2.2.2.1

/-- C1: every GET request with target `P` gets status 200, a
`Content-Type: application/json` header (the source sends the name
spelled `Content-type`; HTTP header names are case-insensitive), and a
JSON body with `status = "healthy"`, `port` = the configured port,
`method = "GET"`, and `path` equal to `P` verbatim, query string
included. -/
theorem c1_get_response (port : Int) (P : String) :
    (do_GET port P).statusCode = 200 ∧
    getHeader (do_GET port P).headers "Content-Type" = some "application/json" ∧
    (do_GET port P).body.status = "healthy" ∧
    (do_GET port P).body.port = port ∧
    (do_GET port P).body.method = "GET" ∧
    (do_GET port P).body.path = P :=
  ⟨rfl, by
    show getHeader [("Content-type", "application/json")] "Content-Type" =
      some "application/json"
    decide, rfl, rfl, rfl, rfl⟩

/-- C2: a POST request whose `Content-Length` evaluates to the
nonnegative integer `n` (0 when the header is absent) and whose stream
holds at least `n` bytes that decode as UTF-8 consumes exactly the
first `n` stream bytes (one `read(n)` call when `n ≠ 0`, none
otherwise) and responds 200 with `body_received` true iff the decoded
body is non-empty; the decoded body is non-empty exactly when `n ≠ 0`,
so a non-empty body yields `true` and an empty body or absent header
yields `false`. -/
theorem c2_post_reads_and_body_received (port : Int) (P : String)
    (cl : Option String) (data : List Nat) (n : Nat) (cps : List Nat)
    (hcl : contentLengthOf cl = .ok (n : Int))
    (hlen : n ≤ data.length)
    (hdec : utf8Decode (data.take n) = some cps) :
    do_POST port P cl data =
      .ok { resp := postResponse port P (!cps.isEmpty)
            remaining := data.drop n
            reads := if n = 0 then [] else [(n : Int)] } ∧
    (cps = [] ↔ n = 0) := by
  have hnil : cps = [] ↔ n = 0 := by
    rw [utf8Decode_nil_iff hdec, List.take_eq_nil_iff]
    constructor
    · rintro (h | h)
      · exact h
      · subst h
        simpa using hlen
    · intro h
      exact Or.inl h
  refine ⟨?_, hnil⟩
  unfold do_POST
  simp only [hcl]
  by_cases hn : n = 0
  · subst hn
    have hcps : cps = [] := hnil.2 rfl
    simp [postResponse, hcps]
  · have hne : (n : Int) ≠ 0 := by exact_mod_cast hn
    rw [if_pos hne]
    have hread : pyRead data (n : Int) = data.take n := by
      simp [pyRead]
    rw [hread, hdec]
    have hmin : (data.take n).length = n := by
      rw [List.length_take]
      omega
    simp [postResponse, hmin, hn]

/-- C3 counterexample: a POST request with the non-numeric
`Content-Length` value `"abc"` is not answered at all: `int` raises
`ValueError` before `send_response` runs, so no 200 response with
`body_received = false` is produced, contradicting the claim that an
invalid header is treated as 0. -/
theorem c3_counterexample :
    do_POST 8080 "/" (some "abc") [] = .error .valueError := rfl

/-- C3 amended: a POST request with an absent `Content-Length` header is
treated as 0 bytes to read and yields the normal 200 JSON response with
`body_received = false`, but a POST whose `Content-Length` value does
not parse as an integer raises `ValueError` before any response byte is
written, failing that request. -/
theorem c3_amended (port : Int) (P : String) (data : List Nat) (s : String)
    (hs : pyInt s = none) :
    do_POST port P none data =
      .ok { resp := postResponse port P false, remaining := data, reads := [] } ∧
    do_POST port P (some s) data = .error .valueError := by
  constructor
  · unfold do_POST
    simp [contentLengthOf, postResponse]
  · unfold do_POST
    simp [contentLengthOf, hs]

/-- C3 witness: instantiation of the amended claim at a concrete
request with `Content-Length: abc`. -/
theorem c3_witness :
    do_POST 8080 "/w" none [7] =
      .ok { resp := postResponse 8080 "/w" false, remaining := [7], reads := [] } ∧
    do_POST 8080 "/w" (some "abc") [7] = .error .valueError :=
  c3_amended 8080 "/w" [7] "abc" rfl

/-- C2 witness: a `POST /submit` with body `hello` and `Content-Length: 5`
consumes the five body bytes and answers `body_received = true`. -/
theorem c2_witness :
    do_POST 8080 "/submit" (some "5") [104, 101, 108, 108, 111] =
      .ok { resp := postResponse 8080 "/submit" true
            remaining := ([] : List Nat)
            reads := [(5 : Int)] } ∧
    (([104, 101, 108, 108, 111] : List Nat) = [] ↔ (5 : Nat) = 0) := by
  have h := c2_post_reads_and_body_received 8080 "/submit" (some "5")
    [104, 101, 108, 108, 111] 5 [104, 101, 108, 108, 111] rfl (by decide) rfl
  simpa using h

/-- C4: every response produced while serving any sequence of requests
reports exactly the port configured at startup; the handler never
modifies it. -/
theorem c4_port_invariant (port : Int) (evs : List Event)
    (out : Except HandlerError Response) (hmem : out ∈ runServer port evs)
    (r : Response) (hok : out = .ok r) : r.body.port = port := by
  simp only [runServer] at hmem
  rcases List.mem_map.1 hmem with ⟨e, -, he⟩
  exact handleEvent_ok_port (he.trans hok)

/-- C4 witness: a server configured on port 9090 answers a GET with
`port = 9090`. -/
theorem c4_witness : (do_GET 9090 "/x").body.port = 9090 :=
  c4_port_invariant 9090 [Event.get "/x"] (Except.ok (do_GET 9090 "/x"))
    (by simp [runServer, handleEvent]) (do_GET 9090 "/x") rfl

/-- C5: every handled request — any GET, and any POST that reaches the
response phase (i.e. whose handler returns a result rather than raising)
— gets status 200 and a `Content-Type: application/json` header. -/
theorem c5_always_200_json (port : Int) :
    (∀ P, (do_GET port P).statusCode = 200 ∧
      getHeader (do_GET port P).headers "Content-Type" = some "application/json") ∧
    (∀ P cl data res, do_POST port P cl data = Except.ok res →
      res.resp.statusCode = 200 ∧
      getHeader res.resp.headers "Content-Type" = some "application/json") := by
  constructor
  · intro P
    refine ⟨rfl, ?_⟩
    show getHeader [("Content-type", "application/json")] "Content-Type" =
      some "application/json"
    decide
  · intro P cl data res h
    obtain ⟨h200, hhdr, -⟩ := do_POST_ok_shape h
    refine ⟨h200, ?_⟩
    rw [hhdr]
    decide

/-- C5 witness: instantiation at a concrete GET and a concrete handled
POST. -/
theorem c5_witness :
    ((do_GET 8080 "/a").statusCode = 200 ∧
      getHeader (do_GET 8080 "/a").headers "Content-Type" =
        some "application/json") ∧
    ({ resp := postResponse 8080 "/a" false, remaining := ([] : List Nat),
        reads := ([] : List Int) } : PostResult).resp.statusCode = 200 ∧
    getHeader ({ resp := postResponse 8080 "/a" false,
                 remaining := ([] : List Nat),
                 reads := ([] : List Int) } : PostResult).resp.headers
        "Content-Type" =
      some "application/json" :=
  ⟨(c5_always_200_json 8080).1 "/a",
   (c5_always_200_json 8080).2 "/a" none [] _ rfl⟩

/-- C6: handling GET is deterministic and stateless, so issuing the same
GET request N times yields N identical responses, and their serialized
JSON bodies are byte-identical. -/
theorem c6_idempotent (port : Int) (P : String) (N : Nat) :
    runServer port (List.replicate N (Event.get P)) =
      List.replicate N (Except.ok (do_GET port P)) ∧
    (runServer port (List.replicate N (Event.get P))).map
        (Except.map (fun r => serializeBody r.body)) =
      List.replicate N (Except.ok (serializeBody (do_GET port P).body)) := by
  have h1 : runServer port (List.replicate N (Event.get P)) =
      List.replicate N (Except.ok (do_GET port P)) := by
    simp [runServer, handleEvent]
  refine ⟨h1, ?_⟩
  rw [h1, List.map_replicate]
  rfl

/-- C7: a POST whose declared `Content-Length` bytes are not valid UTF-8
raises `UnicodeDecodeError` before `send_response` runs, so that request
produces no response bytes at all; the failure is isolated to that
request and later requests are served unchanged. -/
theorem c7_bad_utf8_errors (port : Int) (P s : String) (n : Int)
    (data : List Nat) (rest : List Event) (hs : pyInt s = some n) (hn : n ≠ 0)
    (hdec : utf8Decode (pyRead data n) = none) :
    do_POST port P (some s) data = .error .unicodeDecodeError ∧
    runServer port (Event.post P (some s) data :: rest) =
      Except.error HandlerError.unicodeDecodeError :: runServer port rest := by
  have h1 : do_POST port P (some s) data = .error .unicodeDecodeError := by
    unfold do_POST
    simp only [contentLengthOf, hs]
    rw [if_pos hn, hdec]
  refine ⟨h1, ?_⟩
  simp [runServer, handleEvent, h1, Except.map]

/-- C7 witness: a request with `Content-Length: 1` and the invalid UTF-8 byte `0xFF`
fails only that request; a following GET is served normally. -/
theorem c7_witness :
    do_POST 8080 "/u" (some "1") [255] = .error .unicodeDecodeError ∧
    runServer 8080 [Event.post "/u" (some "1") [255], Event.get "/ok"] =
      Except.error HandlerError.unicodeDecodeError ::
        runServer 8080 [Event.get "/ok"] :=
  c7_bad_utf8_errors 8080 "/u" "1" 1 [255] [Event.get "/ok"] rfl
    (by decide) rfl

/-- C8: the listening port comes from the `PORT` environment variable via
`int`, defaulting to 8080 when absent; a present non-numeric value makes
the coercion raise `ValueError` at startup, before any request is
served. -/
theorem c8_startup_port (s t : String) (n : Int)
    (hs : pyInt s = some n) (ht : pyInt t = none) :
    startupPort none = .ok 8080 ∧
    startupPort (some s) = .ok n ∧
    startupPort (some t) = .error .valueError := by
  refine ⟨rfl, ?_, ?_⟩ <;> simp [startupPort, hs, ht]

/-- C8 witness: setting `PORT=9090` yields 9090, absent yields 8080, `PORT=abc`
fails at startup. -/
theorem c8_witness :
    startupPort none = .ok 8080 ∧
    startupPort (some "9090") = .ok 9090 ∧
    startupPort (some "abc") = .error .valueError :=
  c8_startup_port "9090" "abc" 9090 rfl rfl

/-- C9: the GET branch is total — for every request target it returns the
fixed 200 response and performs no fallible operation, so the handler
never raises on a GET. -/
theorem c9_get_never_fails (port : Int) (P : String) :
    handleEvent port (Event.get P) = Except.ok (do_GET port P) := rfl

/-- C10: when `Content-Length` is absent or parses to 0, `do_POST`
performs no `rfile.read` call at all (the body defaults to `''` without
touching the stream), leaving all stream bytes unread and answering
`body_received = false`. -/
theorem c10_zero_length_no_read (port : Int) (P : String) (data : List Nat)
    (s : String) (hs : pyInt s = some 0) :
    do_POST port P none data =
      .ok { resp := postResponse port P false, remaining := data, reads := [] } ∧
    do_POST port P (some s) data =
      .ok { resp := postResponse port P false, remaining := data, reads := [] } := by
  constructor
  · unfold do_POST
    simp [contentLengthOf, postResponse]
  · unfold do_POST
    simp [contentLengthOf, hs, postResponse]

/-- C10 witness: with two unread bytes on the connection and
`Content-Length` absent or `0`, no read happens and the stream is left
intact. -/
theorem c10_witness :
    do_POST 8080 "/p" none [9, 9] =
      .ok { resp := postResponse 8080 "/p" false, remaining := [9, 9],
            reads := [] } ∧
    do_POST 8080 "/p" (some "0") [9, 9] =
      .ok { resp := postResponse 8080 "/p" false, remaining := [9, 9],
            reads := [] } :=
  c10_zero_length_no_read 8080 "/p" [9, 9] "0" rfl
